import Mathlib

/-!
Verification of the Go agent SDK core (orchestrator, tool registry, and the
Gemini-family provider adapter) against its natural-language specification.

Shallow embedding conventions:
* Go strings are `String`, Go `int` is `Int`, Go `float64` fields that are
  only ever compared against zero (temperature, top-p) are `Rat`.
* A Go value decoded from / encoded to JSON is modelled by the inductive
  `Json`.  A Go `string` field that holds a JSON document (for example
  `FunctionCall.Arguments`) is modelled semantically as `Option Json`:
  `some j` stands for any string that parses to the document `j`, and
  `none` stands for a string that is not valid JSON.  The Go code only ever
  parses such strings (`json.Unmarshal`) or produces them (`json.Marshal`,
  which never fails on a value that itself came from decoded JSON), so this
  abstraction is faithful for every code path the claims touch.
* Fallible Go functions returning `(T, error)` become `Except String T`.
-/

namespace GoAgentSDK

/-- A JSON document, the model of Go values of dynamic type `any` produced
by `encoding/json`.  Numbers are restricted to integers: no claim involves
fractional JSON numbers, and the Go code never does arithmetic on them. -/
inductive Json where
  | null : Json
  | bool (b : Bool) : Json
  | num (n : Int) : Json
  | str (s : String) : Json
  | arr (elems : List Json) : Json
  | obj (fields : List (String × Json)) : Json
deriving Repr

/-- A Go string field holding a JSON-encoded document (see the header
comment): `some j` is a string parsing to `j`, `none` a malformed string. -/
abbrev ArgString := Option Json

/-! ## Canonical model (`llm` package, `src/unnamed/part_001` lines 737-861) -/

/-- `llm.FunctionCall`: function name plus arguments as a JSON string. -/
structure FunctionCall where
  name : String
  arguments : ArgString
deriving Repr

/-- `llm.ToolCall`: the model's request to execute one tool. -/
structure ToolCall where
  id : String
  type : String
  function : FunctionCall
deriving Repr

/-- `llm.Message`: one turn of the conversation.  Optional Go fields
(`omitempty`) keep their Go zero values (`""`, `[]`) when absent. -/
structure Message where
  role : String
  content : String
  name : String := ""
  toolCalls : List ToolCall := []
  toolCallID : String := ""
deriving Repr

/-- `llm.FunctionDescription`: tool metadata sent to the model.
`parameters` is the generated JSON Schema (dynamic `any` in Go). -/
structure FunctionDescription where
  name : String
  description : String
  parameters : Json
deriving Repr

/-- `llm.Tool`: the `type = "function"` envelope around a description. -/
structure Tool where
  type : String
  function : FunctionDescription
deriving Repr

/-- `llm.ChatRequest`.  Unused optional wire fields that no code path of
this repository ever reads or writes (stream, penalties, logit bias, user,
response format, seed, tool choice) are omitted from the embedding. -/
structure ChatRequest where
  model : String
  messages : List Message
  temperature : Rat := 0
  topP : Rat := 0
  stop : List String := []
  maxTokens : Int := 0
  tools : List Tool := []
deriving Repr

/-- `llm.Usage`: token counters. -/
structure Usage where
  promptTokens : Int
  completionTokens : Int
  totalTokens : Int
deriving Repr, DecidableEq

/-- `llm.Choice`: one completion. -/
structure Choice where
  index : Int
  message : Message
  finishReason : String
deriving Repr

/-- `llm.ChatResponse`.  Metadata fields never read by any code path
(id, object, created, system fingerprint) are omitted. -/
structure ChatResponse where
  model : String
  choices : List Choice
  usage : Usage
deriving Repr

/-! ## Message constructors (`src/unnamed/part_001` lines 443-515) -/

/-- `llm.NewSystemMessage`. -/
def NewSystemMessage (content : String) : Message :=
  { role := "system", content := content }

/-- `llm.NewUserMessage`. -/
def NewUserMessage (content : String) : Message :=
  { role := "user", content := content }

/-- `llm.NewAssistantMessage`. -/
def NewAssistantMessage (content : String) : Message :=
  { role := "assistant", content := content }

/-- `llm.NewToolCallMessage`: assistant message carrying tool calls and,
per the OpenAI constraint, no text content. -/
def NewToolCallMessage (calls : List ToolCall) : Message :=
  { role := "assistant", content := "", toolCalls := calls }

/-- `llm.NewToolResult`: tool message carrying one execution result,
stamped with the originating call identifier and the tool name. -/
def NewToolResult (toolCallID : String) (name : String) (output : String) : Message :=
  { role := "tool", content := output, name := name, toolCallID := toolCallID }

/-- `llm.NewToolError`: tool message reporting a failed execution; the
`fmt.Sprintf` formatting of the Go error is reproduced verbatim. -/
def NewToolError (toolCallID : String) (name : String) (errMsg : String) : Message :=
  { role := "tool"
    content := "Error executing tool: " ++ errMsg ++ ". Please fix your arguments."
    name := name
    toolCallID := toolCallID }

/-! ## Tool registry (`tools` package, `src/unnamed/part_003` and
`src/tools/execution.go`)

The registry stores arbitrary Go functions through `reflect`.  The embedding
models the fragment of Go's reflection that the registry code actually
touches: the type of a registered argument (`GoType`), runtime values of
those types (`GoValue`), and the `reflect.Kind` classification of a
function's first result that `Execute` performs (`RetVal`). -/

/-- Model of a Go type usable as a tool-argument type: primitives and
structs (field list in declaration order, keyed by the JSON field name). -/
inductive GoType where
  | string : GoType
  | int : GoType
  | bool : GoType
  | struct (fields : List (String × GoType)) : GoType
deriving Repr

/-- Model of a runtime Go value of a `GoType`. -/
inductive GoValue where
  | str (s : String) : GoValue
  | intV (n : Int) : GoValue
  | boolV (b : Bool) : GoValue
  | structV (fields : List (String × GoValue)) : GoValue
deriving Repr

/-- The zero value of a Go type (`reflect.New(t).Elem()`). -/
def zeroValue : GoType → GoValue
  | .string => .str ""
  | .int => .intV 0
  | .bool => .boolV false
  | .struct fields => .structV (zeroFields fields)
where
  /-- Zero values of a struct's fields. -/
  zeroFields : List (String × GoType) → List (String × GoValue)
    | [] => []
    | (k, t) :: rest => (k, zeroValue t) :: zeroFields rest

/-- Field-type lookup in a struct type (first match, as in Go where field
names are unique). -/
def findFieldType (fields : List (String × GoType)) (k : String) : Option GoType :=
  match fields with
  | [] => none
  | (k', t) :: rest => if k' = k then some t else findFieldType rest k

/-- Current field value during decoding. -/
def findFieldVal (fields : List (String × GoValue)) (k : String) : Option GoValue :=
  match fields with
  | [] => none
  | (k', v) :: rest => if k' = k then some v else findFieldVal rest k

/-- Replace the value stored under key `k` (first occurrence). -/
def setFieldVal (fields : List (String × GoValue)) (k : String) (v : GoValue) :
    List (String × GoValue) :=
  match fields with
  | [] => []
  | (k', v') :: rest =>
      if k' = k then (k', v) :: rest else (k', v') :: setFieldVal rest k v

mutual

/-- Model of `json.Unmarshal` decoding document `j` into an existing value
`cur` of type `t` (Go decodes in place into a pointed-to value).  Faithful
to `encoding/json` on the fragment the registry can exercise:
JSON `null` is a no-op and never an error; a primitive decodes only from
the matching JSON kind; an object decodes field-by-field into a struct,
ignoring unknown keys and leaving absent fields at their current value;
any kind mismatch is an error (`none`). -/
def unmarshal (t : GoType) (cur : GoValue) (j : Json) : Option GoValue :=
  match t, cur, j with
  | _, c, .null => some c
  | .string, _, .str s => some (.str s)
  | .int, _, .num n => some (.intV n)
  | .bool, _, .bool b => some (.boolV b)
  | .struct fts, .structV cfs, .obj jfs =>
      (unmarshalFields fts cfs jfs).map GoValue.structV
  | _, _, _ => none
termination_by sizeOf j

/-- Decode a JSON object's key/value pairs, in order, into a struct's
current field values (so a duplicated JSON key overwrites, as in Go). -/
def unmarshalFields (fts : List (String × GoType)) (cfs : List (String × GoValue))
    (jfs : List (String × Json)) : Option (List (String × GoValue)) :=
  match jfs with
  | [] => some cfs
  | (k, jv) :: rest =>
      match findFieldType fts k, findFieldVal cfs k with
      | some ft, some cv =>
          match unmarshal ft cv jv with
          | some cv' => unmarshalFields fts (setFieldVal cfs k cv') rest
          | none => none
      | _, _ => unmarshalFields fts cfs rest
termination_by sizeOf jfs

end

/-- The `reflect.Kind`-level view of a Go function's result that
`Execute` inspects: a string-kinded value, an interface-kinded value
(which may or may not hold a string), or any other kind. -/
inductive RetVal where
  | str (s : String) : RetVal
  | iface (v : Option String) : RetVal
  | other : RetVal
deriving Repr

/-- The string `Execute` extracts from the first result, when it can:
`Kind() == String` yields `.String()`, `Kind() == Interface` yields the
type-asserted string when the interface holds one. -/
def retToString : RetVal → Option String
  | .str s => some s
  | .iface (some s) => some s
  | .iface none => none
  | .other => none

/-- Model of a Go function value: its input types (`NumIn`, `In(i)`) and
its behaviour when called with one argument (`reflect.Value.Call`); the
registry only ever calls functions it accepted, which take exactly one
argument, so a single-argument behaviour suffices. -/
structure GoFunc where
  inTypes : List GoType
  impl : GoValue → List RetVal

/-- The `any` value handed to `Register`: either a function or a value of
some non-function kind (string, int, struct, ...). -/
inductive GoCallable where
  | func (f : GoFunc) : GoCallable
  | nonFunc (kindName : String) : GoCallable

/-- `tools.ToolDefinition` (the `Func`/`ArgsType` pair of reflect handles
becomes the model function and its argument type).  The JSON Schema field
is kept abstract: its generator `jsonschema.GenerateSchema` is an
out-of-scope leaf utility whose output no claim inspects. -/
structure ToolDefinition where
  name : String
  description : String
  argsType : GoType
  fn : GoValue → List RetVal
  schema : Json

/-- `tools.Registry`: a name-keyed map of definitions, modelled as an
association list with unique keys (`upsert` below preserves uniqueness,
mirroring Go map insertion). -/
abbrev Registry := List (String × ToolDefinition)

/-- `tools.NewRegistry`. -/
def NewRegistry : Registry := []

/-- Go map lookup `r.definitions[name]`. -/
def lookupDef (r : Registry) (name : String) : Option ToolDefinition :=
  match r with
  | [] => none
  | (k, d) :: rest => if k = name then some d else lookupDef rest name

/-- Go map insertion `r.definitions[name] = def` (replaces an existing
entry under the same key, otherwise appends). -/
def upsert (r : Registry) (name : String) (d : ToolDefinition) : Registry :=
  match r with
  | [] => [(name, d)]
  | (k, d') :: rest =>
      if k = name then (k, d) :: rest else (k, d') :: upsert rest name d

/-- `Registry.Register` (`src/unnamed/part_003` lines 70-97): reject a
non-function, reject a function whose `NumIn() != 1`, otherwise generate
the schema for the single argument type and store the definition.  The
schema generator is a parameter (out-of-scope leaf utility).  On an error
return the registry value is unused by the caller, so the map is
unchanged. -/
def Register (genSchema : GoType → Json) (r : Registry) (name : String)
    (description : String) (function : GoCallable) : Except String Registry :=
  match function with
  | .nonFunc _ => .error "this is not a valid function please try again"
  | .func f =>
      match f.inTypes with
      | [argType] =>
          .ok (upsert r name
            { name := name
              description := description
              argsType := argType
              fn := f.impl
              schema := genSchema argType })
      | _ => .error "function must have exactly 1 argument"

/-- The result-shape handling at the end of `Registry.Execute`
(`src/tools/execution.go` lines 53-69): no results is an error, a
string-kinded or string-holding-interface first result is returned, and
anything else is the closed-contract error. -/
def callResult (results : List RetVal) : Except String String :=
  match results with
  | [] => .error "function returned no results"
  | r0 :: _ =>
      match retToString r0 with
      | some s => .ok s
      | none => .error "function did not return a string"

/-- `Registry.Execute` (`src/tools/execution.go` lines 32-70): look up the
tool, build a zero value of its argument type, `json.Unmarshal` the
argument string into it, call the function and interpret the first result.
The Go error texts "tool %s not found", "invalid args: %w",
"function returned no results" and "function did not return a string" are
reproduced; the`%w` detail of the underlying JSON error is abbreviated to
a fixed tag since only the error kind is observable to the claims. -/
def Execute (r : Registry) (name : String) (argsJson : ArgString) :
    Except String String :=
  match lookupDef r name with
  | none => .error ("tool " ++ name ++ " not found")
  | some d =>
      match argsJson with
      | none => .error "invalid args: malformed JSON"
      | some j =>
          match unmarshal d.argsType (zeroValue d.argsType) j with
          | none => .error "invalid args: cannot unmarshal"
          | some argVal => callResult (d.fn argVal)

/-- `Registry.GetAllTools` (`src/unnamed/part_003` lines 116-139): reshape
every stored definition into the canonical `Tool` envelope.  Go iterates
the map in unspecified order; the embedding uses the association-list
order, which no claim observes. -/
def GetAllTools (r : Registry) : List Tool :=
  r.map fun (_, d) =>
    { type := "function"
      function :=
        { name := d.name
          description := d.description
          parameters := d.schema } }

/-! ## Gemini adapter (`gemini` package, `src/unnamed/part_001` lines 1-442)

Wire structs of the vendor request/response, then `mapRequest` and
`mapResponse`.  `generateCallID` draws from `crypto/rand`; the embedding
takes the identifier supply as a function `genId` from the index of the
function-call part to the generated identifier. -/

/-- `gemini.gFunctionCall`: tool invocation with structured (`any`)
arguments. -/
structure GFunctionCall where
  name : String
  args : Json
deriving Repr

/-- `gemini.gFunctionResponse`: tool result sent back to the vendor. -/
structure GFunctionResponse where
  name : String
  response : Json
  id : String
deriving Repr

/-- `gemini.gPart`: union of text, function-call and function-response
parts; absent members are the Go zero values `""` / `none`. -/
structure GPart where
  text : String := ""
  functionCall : Option GFunctionCall := none
  functionResponse : Option GFunctionResponse := none
deriving Repr

/-- `gemini.geminiContent`: one vendor turn. -/
structure GeminiContent where
  role : String
  parts : List GPart
deriving Repr

/-- `gemini.systemInstruction`: top-level system field. -/
structure SystemInstruction where
  role : String
  parts : List GPart
deriving Repr

/-- `gemini.gFunctionDeclaration`: flat tool description. -/
structure GFunctionDeclaration where
  name : String
  description : String
  parameters : Json
deriving Repr

/-- `gemini.geminiTool`: wrapper holding function declarations. -/
structure GeminiTool where
  functionDeclarations : List GFunctionDeclaration
deriving Repr

/-- `gemini.generationConfig`: nested generation parameters. -/
structure GenerationConfig where
  temperature : Rat
  topP : Rat
  maxOutputTokens : Int
  stopSequences : List String
deriving Repr, DecidableEq

/-- `gemini.geminiRequest`: top-level vendor request body. -/
structure GeminiRequest where
  contents : List GeminiContent
  systemInstruction : Option SystemInstruction
  tools : List GeminiTool
  generationConfig : Option GenerationConfig
deriving Repr

/-- `gemini.geminiUsage`: vendor token counters. -/
structure GeminiUsage where
  promptTokenCount : Int
  candidatesTokenCount : Int
  totalTokenCount : Int
  thoughtsTokenCount : Int
deriving Repr, DecidableEq

/-- `gemini.geminiCandidate`: one vendor completion. -/
structure GeminiCandidate where
  content : GeminiContent
  finishReason : String
  index : Int
deriving Repr

/-- `gemini.geminiResponse`: top-level vendor response body. -/
structure GeminiResponse where
  candidates : List GeminiCandidate
  usageMetadata : Option GeminiUsage
  modelVersion : String
deriving Repr

/-- The per-message loop of `mapRequest` (lines 201-272), processing the
message list in order while accumulating the optional system instruction
and the vendor turns.  A message with a role outside the four known ones
falls through the Go `switch` and is dropped. -/
def mapReqMessages (msgs : List Message) (sysInst : Option SystemInstruction)
    (contents : List GeminiContent) :
    Option SystemInstruction × List GeminiContent :=
  match msgs with
  | [] => (sysInst, contents)
  | msg :: rest =>
      match msg.role with
      | "system" =>
          let si := (sysInst.getD { role := "user", parts := [] })
          mapReqMessages rest
            (some { si with parts := si.parts ++ [{ text := msg.content }] })
            contents
      | "user" =>
          mapReqMessages rest sysInst
            (contents ++ [{ role := "user", parts := [{ text := msg.content }] }])
      | "assistant" =>
          if msg.toolCalls.isEmpty then
            mapReqMessages rest sysInst
              (contents ++ [{ role := "model", parts := [{ text := msg.content }] }])
          else
            let textPart : List GPart :=
              if msg.content ≠ "" then [{ text := msg.content }] else []
            let callParts : List GPart := msg.toolCalls.map fun call =>
              { functionCall := some
                  { name := call.function.name
                    -- json.Unmarshal of the canonical argument string;
                    -- a malformed string falls back to the empty object.
                    args := call.function.arguments.getD (Json.obj []) } }
            mapReqMessages rest sysInst
              (contents ++ [{ role := "model", parts := textPart ++ callParts }])
      | "tool" =>
          let fr : GFunctionResponse :=
            { name := msg.name
              response := Json.obj [("return_value", Json.str msg.content)]
              id := msg.toolCallID }
          mapReqMessages rest sysInst
            (contents ++ [{ role := "user", parts := [{ functionResponse := some fr }] }])
      | _ => mapReqMessages rest sysInst contents

/-- `gemini.mapRequest` (lines 196-306): translate the canonical request
into the vendor body — messages into contents plus system instruction,
tools unwrapped into flat declarations, and the generation-config
sub-object built only when some generation parameter is non-default. -/
def mapRequest (req : ChatRequest) : GeminiRequest :=
  let mapped := mapReqMessages req.messages none []
  let tools : List GeminiTool :=
    if req.tools.isEmpty then []
    else
      [{ functionDeclarations := req.tools.map fun t =>
          { name := t.function.name
            description := t.function.description
            parameters := t.function.parameters } }]
  let genConfig : Option GenerationConfig :=
    if req.temperature ≠ 0 ∨ req.topP ≠ 0 ∨ req.maxTokens ≠ 0 ∨ req.stop ≠ [] then
      some { temperature := req.temperature
             topP := req.topP
             maxOutputTokens := req.maxTokens
             stopSequences := req.stop }
    else none
  { contents := mapped.2
    systemInstruction := mapped.1
    tools := tools
    generationConfig := genConfig }

/-- The text-collection half of the parts walk in `mapResponse`
(lines 328-331): concatenate the text of every part with non-empty text. -/
def partsText : List GPart → String
  | [] => ""
  | p :: rest => (if p.text ≠ "" then p.text else "") ++ partsText rest

/-- Turn the function-call parts into canonical tool calls, assigning the
identifier `genId i` to the i-th function-call part (`generateCallID` in
the Go code, which draws a fresh random identifier per call).  The
structured arguments are re-encoded as a JSON string, which for a decoded
JSON value never fails (`json.Marshal`), so the `"{}"` fallback of the Go
code is unreachable. -/
def assignIds (genId : Nat → String) : Nat → List GFunctionCall → List ToolCall
  | _, [] => []
  | i, fc :: rest =>
      { id := genId i
        type := "function"
        function := { name := fc.name, arguments := some fc.args } }
        :: assignIds genId (i + 1) rest

/-- The tool-call-collection half of the parts walk in `mapResponse`
(lines 333-348). -/
def partsCalls (genId : Nat → String) (parts : List GPart) : List ToolCall :=
  assignIds genId 0 (parts.filterMap GPart.functionCall)

/-- `gemini.mapResponse` (lines 314-396): zero candidates yield an empty
choice list (and zero-valued usage); otherwise the first candidate's parts
are walked for text and tool calls, the canonical finish reason is
`"tool_calls"` whenever a function-call part was found and is otherwise
mapped from the vendor reason table, and usage counters are mapped when
usage metadata is present (thinking tokens added into completion). -/
def mapResponse (genId : Nat → String) (resp : GeminiResponse) : ChatResponse :=
  match resp.candidates with
  | [] => { model := "", choices := [], usage := ⟨0, 0, 0⟩ }
  | candidate :: _ =>
      let textContent := partsText candidate.content.parts
      let toolCalls := partsCalls genId candidate.content.parts
      let finishReason :=
        if toolCalls.isEmpty then
          match candidate.finishReason with
          | "STOP" => "stop"
          | "MAX_TOKENS" => "length"
          | "SAFETY" => "content_filter"
          | "RECITATION" => "content_filter"
          | "BLOCKLIST" => "content_filter"
          | "PROHIBITED_CONTENT" => "content_filter"
          | other => other
        else "tool_calls"
      let usage : Usage :=
        match resp.usageMetadata with
        | some u =>
            { promptTokens := u.promptTokenCount
              completionTokens := u.candidatesTokenCount + u.thoughtsTokenCount
              totalTokens := u.totalTokenCount }
        | none => ⟨0, 0, 0⟩
      { model := resp.modelVersion
        choices :=
          [{ index := 0
             message :=
               { role := "assistant"
                 content := textContent
                 toolCalls := toolCalls }
             finishReason := finishReason }]
        usage := usage }

/-! ## Orchestrator (`agent` package, `src/agent/agent.go`)

`Run` calls the provider through the `llm.ChatProvider` interface and
recurses after a tool round.  The embedding models the provider by the
finite trace of its behaviour that one `Run` call can observe: a list of
per-invocation response functions `ChatRequest → Except String ChatResponse`
(each entry is one `CreateChat` invocation; an arbitrary dependence on the
request is allowed).  Recursion is structural on that list, and an
exhausted list is reported like a transport failure — it only means the
execution needed more provider calls than the trace provides, which no
claim's hypotheses allow at the point they constrain.  The optional
observer callback fires on these paths without affecting control flow or
history (spec §6) and is elided. -/

/-- One provider behaviour trace entry: what `CreateChat` returns for the
request it is given. -/
abbrev ProviderStep := ChatRequest → Except String ChatResponse

/-- The messages a `finish_reason = "tool_calls"` round appends after the
assistant message: per requested call, in order, the linked tool-result or
tool-error message (`src/agent/agent.go` lines 227-253). -/
def toolRoundMessages (tools : Registry) (calls : List ToolCall) : List Message :=
  calls.map fun call =>
    match Execute tools call.function.name call.function.arguments with
    | .error e => NewToolError call.id call.function.name e
    | .ok result => NewToolResult call.id call.function.name result

/-- The user turn step 1 of `Run` appends: one user message when the
incoming message is non-empty, nothing on the internal re-entry with the
empty message. -/
def userPart (usrMsg : String) : List Message :=
  if usrMsg = "" then [] else [NewUserMessage usrMsg]

/-- The request `Run` builds each round (`src/agent/agent.go` lines
184-189): full history, the provider's model name, every registered tool,
and the hardcoded temperature 0.7. -/
def buildRequest (tools : Registry) (model : String) (hist : List Message) :
    ChatRequest :=
  { model := model
    messages := hist
    tools := GetAllTools tools
    temperature := (7 : Rat) / 10 }

/-- The body of `Agent.Run` (`src/agent/agent.go` lines 171-270), with the
provider's remaining behaviour trace made explicit.  Returns the final
history, the returned text or error, and the number of provider
invocations made. -/
def runAux (tools : Registry) (model : String) (script : List ProviderStep)
    (hist : List Message) (usrMsg : String) :
    List Message × Except String String × Nat :=
  let hist1 := hist ++ userPart usrMsg
  match script with
  | [] => (hist1, .error "LLM call failed: provider trace exhausted", 0)
  | provider :: rest =>
      match provider (buildRequest tools model hist1) with
      | .error e => (hist1, .error ("LLM call failed: " ++ e), 1)
      | .ok resp =>
          match resp.choices with
          | [] => (hist1, .error "LLM returned no choices", 1)
          | choice :: _ =>
              if choice.finishReason = "tool_calls" then
                let assistantMsg := NewToolCallMessage choice.message.toolCalls
                let toolMsgs := toolRoundMessages tools choice.message.toolCalls
                let next := runAux tools model rest
                  (hist1 ++ assistantMsg :: toolMsgs) ""
                (next.1, next.2.1, next.2.2 + 1)
              else if choice.finishReason = "stop" then
                (hist1 ++ [NewAssistantMessage choice.message.content],
                  .ok choice.message.content, 1)
              else
                (hist1, .error ("unexpected finish_reason: " ++ choice.finishReason), 1)

/-- `agent.Agent`: the orchestrator state.  The provider reference is
replaced by its model name plus the behaviour trace passed to `Run`
(see the section comment); the callback is elided. -/
structure Agent where
  systemPrompt : String
  maxRetries : Int
  history : List Message
  tools : Registry
  model : String

/-- `Agent.Run` for one call: final history paired with the returned text
or error and the number of provider invocations. -/
def Agent.Run (a : Agent) (script : List ProviderStep) (usrMsg : String) :
    List Message × Except String String × Nat :=
  runAux a.tools a.model script a.history usrMsg

/-! ## Sample inputs used by witnesses and counterexamples -/

/-- Boolean success test on a registration result. -/
def regIsOk : Except String Registry → Bool
  | .ok _ => true
  | .error _ => false

/-- A trivial schema generator standing in for the out-of-scope
`jsonschema.GenerateSchema` in concrete instances. -/
def nullSchema : GoType → Json := fun _ => Json.null

/-- A one-argument Go function whose single result is of a kind other than
string or interface (for example an `int`). -/
def intReturningFunc : GoCallable :=
  .func { inTypes := [GoType.int], impl := fun _ => [RetVal.other] }

/-- A Go function taking zero arguments. -/
def zeroArgFunc : GoCallable :=
  .func { inTypes := [], impl := fun _ => [] }

/-- A one-argument Go function returning a string. -/
def strReturningImpl : GoValue → List RetVal := fun _ => [RetVal.str "ok"]

/-- The registered definition of a sample `echo` tool whose argument type
is a struct with one string field `city`, as produced by `Register`. -/
def echoDef : ToolDefinition :=
  { name := "echo"
    description := "sample"
    argsType := GoType.struct [("city", GoType.string)]
    fn := strReturningImpl
    schema := Json.null }

/-- A registry holding the `echo` tool (the value `Register` stores for
it, see `register_ok_cases`). -/
def echoReg : Registry := [("echo", echoDef)]

/-- A vendor response with no candidates but with usage metadata, as the
vendor reports for a blocked prompt. -/
def blockedResp : GeminiResponse :=
  { candidates := []
    usageMetadata := some { promptTokenCount := 1, candidatesTokenCount := 2,
                            totalTokenCount := 3, thoughtsTokenCount := 4 }
    modelVersion := "" }

/-- A trivial identifier supply for concrete `mapResponse` instances. -/
def constGenId : Nat → String := fun _ => "call_0"

/-- A provider step answering every request with an empty choice list. -/
def noChoiceStep : ProviderStep :=
  fun _ => .ok { model := "", choices := [], usage := ⟨0, 0, 0⟩ }

/-- A sample agent for concrete instances. -/
def sampleAgent : Agent :=
  { systemPrompt := ""
    maxRetries := 1
    history := []
    tools := NewRegistry
    model := "m" }

/-- Two sample tool calls with distinct identifiers: one hitting the
registered `echo` tool and one naming an unregistered tool. -/
def c2calls : List ToolCall :=
  [{ id := "a", type := "function"
     function := { name := "echo", arguments := some (Json.obj []) } },
   { id := "b", type := "function"
     function := { name := "missing", arguments := some (Json.obj []) } }]

/-- A choice requesting the two sample tool calls. -/
def c2choice : Choice :=
  { index := 0
    message := { role := "assistant", content := "", toolCalls := c2calls }
    finishReason := "tool_calls" }

/-- A response carrying that choice. -/
def c2resp : ChatResponse :=
  { model := "", choices := [c2choice], usage := ⟨0, 0, 0⟩ }

/-- A provider step answering every request with that response. -/
def c2step : ProviderStep := fun _ => .ok c2resp

/-! ## Helper lemmas -/

/-- `assignIds` preserves the length of the function-call list. -/
theorem assignIds_length (genId : Nat → String) :
    ∀ (i : Nat) (fcs : List GFunctionCall),
      (assignIds genId i fcs).length = fcs.length := by
  intro i fcs
  induction fcs generalizing i with
  | nil => simp [assignIds]
  | cons fc rest ih => simp [assignIds, ih]

/-- The canonical tool calls decoded from a parts list are empty exactly
when the parts list has no function-call part. -/
theorem partsCalls_isEmpty (genId : Nat → String) (parts : List GPart) :
    (partsCalls genId parts).isEmpty =
      (parts.filterMap GPart.functionCall).isEmpty := by
  unfold partsCalls
  cases parts.filterMap GPart.functionCall with
  | nil => simp [assignIds]
  | cons fc rest => simp [assignIds]

/-- Every message of a tool round carries the `tool` role. -/
theorem toolRoundMessages_role (tools : Registry) (calls : List ToolCall) :
    ∀ msg ∈ toolRoundMessages tools calls, msg.role = "tool" := by
  intro msg hmsg
  simp only [toolRoundMessages, List.mem_map] at hmsg
  obtain ⟨call, -, rfl⟩ := hmsg
  cases h : Execute tools call.function.name call.function.arguments <;>
    simp [h, NewToolError, NewToolResult]

/-- The identifiers stamped on a tool round's messages are, in order,
exactly the identifiers of the requested calls. -/
theorem toolRoundMessages_ids (tools : Registry) (calls : List ToolCall) :
    (toolRoundMessages tools calls).map Message.toolCallID =
      calls.map ToolCall.id := by
  simp only [toolRoundMessages, List.map_map]
  refine List.map_congr_left ?_
  intro call _
  cases h : Execute tools call.function.name call.function.arguments <;>
    simp [h, NewToolError, NewToolResult]

/-- Master lemma on `runAux`: the input history extended with the user
turn (when one is due) is a prefix of the output history, and nothing
after that point carries the `user` role. -/
theorem runAux_extends (tools : Registry) (model : String) :
    ∀ (script : List ProviderStep) (hist : List Message) (usrMsg : String),
      ∃ tail, (runAux tools model script hist usrMsg).1 =
          hist ++ userPart usrMsg ++ tail ∧
        ∀ msg ∈ tail, msg.role ≠ "user" := by
  intro script
  induction script with
  | nil =>
      intro hist usrMsg
      exact ⟨[], by simp [runAux], by simp⟩
  | cons provider rest ih =>
      intro hist usrMsg
      simp only [runAux]
      cases hp : provider (buildRequest tools model (hist ++ userPart usrMsg)) with
      | error e => exact ⟨[], by simp, by simp⟩
      | ok resp =>
          cases hc : resp.choices with
          | nil => exact ⟨[], by simp [hc], by simp⟩
          | cons choice cs =>
              simp only [hc]
              by_cases hf : choice.finishReason = "tool_calls"
              · simp only [hf, if_true]
                obtain ⟨tail', heq, hrole⟩ :=
                  ih (hist ++ (userPart usrMsg ++
                    NewToolCallMessage choice.message.toolCalls ::
                      toolRoundMessages tools choice.message.toolCalls)) ""
                refine ⟨NewToolCallMessage choice.message.toolCalls ::
                  (toolRoundMessages tools choice.message.toolCalls ++ tail'), ?_, ?_⟩
                · simpa [userPart] using heq
                · intro msg hmsg
                  rcases List.mem_cons.mp hmsg with h | h
                  · subst h; simp [NewToolCallMessage]
                  · rcases List.mem_append.mp h with h | h
                    · have := toolRoundMessages_role tools choice.message.toolCalls msg h
                      simp [this]
                    · exact hrole msg h
              · by_cases hs : choice.finishReason = "stop"
                · refine ⟨[NewAssistantMessage choice.message.content], ?_, ?_⟩
                  · simp [hf, hs]
                  · simp [NewAssistantMessage]
                · exact ⟨[], by simp [hf, hs], by simp⟩

/-! ## Claim theorems -/

/-- Concrete candidate for the C1 witness: a single function-call part
while the vendor reports `STOP`. -/
def c1cand : GeminiCandidate :=
  { content :=
      { role := "model"
        parts := [{ functionCall := some { name := "f", args := Json.obj [] } }] }
    finishReason := "STOP"
    index := 0 }

/-- Concrete response for the C1 witness. -/
def c1resp : GeminiResponse :=
  { candidates := [c1cand], usageMetadata := none, modelVersion := "" }

/-- C1: in the Gemini adapter's `mapResponse`, the canonical finish reason
of the decoded choice is `tool_calls` whenever the decoded candidate's
parts contain at least one function-call part, regardless of the vendor's
own reported finish reason; only when no function-call part is present is
the vendor reason mapped by table — `STOP` to `stop`, `MAX_TOKENS` to
`length`, the safety/content-filter variants to `content_filter`, any
other value passed through verbatim. -/
theorem c1_finish_reason_by_content (genId : Nat → String)
    (resp : GeminiResponse) (cand : GeminiCandidate)
    (rest : List GeminiCandidate) (hc : resp.candidates = cand :: rest) :
    (mapResponse genId resp).choices.map Choice.finishReason =
      [if (cand.content.parts.filterMap GPart.functionCall).isEmpty then
        (match cand.finishReason with
         | "STOP" => "stop"
         | "MAX_TOKENS" => "length"
         | "SAFETY" => "content_filter"
         | "RECITATION" => "content_filter"
         | "BLOCKLIST" => "content_filter"
         | "PROHIBITED_CONTENT" => "content_filter"
         | other => other)
       else "tool_calls"] := by
  simp only [mapResponse, hc, List.map_cons, List.map_nil, List.cons.injEq, and_true]
  rw [partsCalls_isEmpty]

/-- Witness for C1 at a concrete response: one function-call part and the
vendor reason `STOP` still decode to `tool_calls`. -/
theorem c1_witness :
    (mapResponse constGenId c1resp).choices.map Choice.finishReason =
      ["tool_calls"] := by
  simpa [c1cand] using
    c1_finish_reason_by_content constGenId c1resp c1cand [] rfl

/-- C5: when the provider's response carries zero choices, `Run` fails
with the no-choices error and the history at exit is exactly the history
at entry plus the user turn appended for this call (nothing else). -/
theorem c5_no_choices (tools : Registry) (model : String)
    (provider : ProviderStep) (rest : List ProviderStep)
    (hist : List Message) (usrMsg : String) (resp : ChatResponse)
    (hp : provider (buildRequest tools model (hist ++ userPart usrMsg)) = .ok resp)
    (hc : resp.choices = []) :
    runAux tools model (provider :: rest) hist usrMsg =
      (hist ++ userPart usrMsg, .error "LLM returned no choices", 1) := by
  simp only [runAux]
  rw [hp]
  simp [hc]

/-- Witness for C5: a concrete provider step with an empty choice list. -/
theorem c5_witness :
    runAux NewRegistry "m" [noChoiceStep] [] "hi" =
      ([] ++ userPart "hi", .error "LLM returned no choices", 1) :=
  c5_no_choices NewRegistry "m" noChoiceStep [] [] "hi" _ rfl rfl

/-- C6: history is append-only on every path of `Run`: the entry history
is a prefix of the exit history; a call with a non-empty user message
appends exactly one user turn carrying that message before anything else,
and a call with the empty re-entry message never appends a user turn. -/
theorem c6_history_append_only (a : Agent) (script : List ProviderStep)
    (usrMsg : String) :
    ∃ tail, (a.Run script usrMsg).1 = a.history ++ tail ∧
      (usrMsg = "" → ∀ msg ∈ tail, msg.role ≠ "user") ∧
      (usrMsg ≠ "" → ∃ rest, tail = NewUserMessage usrMsg :: rest ∧
        ∀ msg ∈ rest, msg.role ≠ "user") := by
  obtain ⟨tail, heq, hrole⟩ := runAux_extends a.tools a.model script a.history usrMsg
  by_cases h : usrMsg = ""
  · refine ⟨tail, ?_, fun _ => hrole, fun hne => absurd h hne⟩
    simpa [Agent.Run, userPart, h] using heq
  · refine ⟨NewUserMessage usrMsg :: tail, ?_, fun he => absurd he h,
      fun _ => ⟨tail, rfl, hrole⟩⟩
    simpa [Agent.Run, userPart, h] using heq

/-- Witness for C6 at a concrete agent, script and message. -/
theorem c6_witness :
    ∃ tail,
      ((Agent.Run sampleAgent [noChoiceStep] "hi").1 = sampleAgent.history ++ tail) ∧
      ("hi" = "" → ∀ msg ∈ tail, msg.role ≠ "user") ∧
      ("hi" ≠ "" → ∃ rest, tail = NewUserMessage "hi" :: rest ∧
        ∀ msg ∈ rest, msg.role ≠ "user") :=
  c6_history_append_only sampleAgent [noChoiceStep] "hi"

/-- C7: `mapRequest` omits the generation-config sub-object exactly when
temperature, top-p and max tokens are zero and the stop list is empty;
when at least one is non-default, a single sub-object carrying all four
parameters is included. -/
theorem c7_generation_config (req : ChatRequest) :
    ((mapRequest req).generationConfig = none ↔
      (req.temperature = 0 ∧ req.topP = 0 ∧ req.maxTokens = 0 ∧ req.stop = [])) ∧
    ((req.temperature ≠ 0 ∨ req.topP ≠ 0 ∨ req.maxTokens ≠ 0 ∨ req.stop ≠ []) →
      (mapRequest req).generationConfig =
        some { temperature := req.temperature
               topP := req.topP
               maxOutputTokens := req.maxTokens
               stopSequences := req.stop }) := by
  by_cases h : req.temperature ≠ 0 ∨ req.topP ≠ 0 ∨ req.maxTokens ≠ 0 ∨ req.stop ≠ []
  · constructor
    · simp only [mapRequest, if_pos h]
      constructor
      · intro hnone; cases hnone
      · rintro ⟨h1, h2, h3, h4⟩
        rcases h with h | h | h | h <;> exact absurd (by assumption) h
    · intro _; simp only [mapRequest, if_pos h]
  · push_neg at h
    obtain ⟨h1, h2, h3, h4⟩ := h
    constructor
    · have : ¬(req.temperature ≠ 0 ∨ req.topP ≠ 0 ∨ req.maxTokens ≠ 0 ∨ req.stop ≠ []) := by
        push_neg; exact ⟨h1, h2, h3, h4⟩
      simp only [mapRequest, if_neg this]
      simp [h1, h2, h3, h4]
    · rintro (h' | h' | h' | h') <;> exact absurd (by assumption) h'

/-- Witness for C7 (second conjunct has a hypothesis): a request with a
non-zero temperature carries the sub-object with all four parameters. -/
theorem c7_witness :
    (mapRequest { model := "m", messages := [], temperature := 1 }).generationConfig =
      some { temperature := 1, topP := 0, maxOutputTokens := 0, stopSequences := [] } :=
  (c7_generation_config { model := "m", messages := [], temperature := 1 }).2
    (Or.inl (by norm_num))

/-- C8 counterexample: the claim quantifies over every vendor response
carrying usage metadata, but `mapResponse` returns early — with zero-valued
usage — when the candidate list is empty, so a blocked-prompt response
with usage metadata does not receive the vendor counters. -/
theorem c8_counterexample :
    blockedResp.usageMetadata =
      some { promptTokenCount := 1, candidatesTokenCount := 2,
             totalTokenCount := 3, thoughtsTokenCount := 4 } ∧
    (mapResponse constGenId blockedResp).usage.completionTokens ≠ 2 + 4 :=
  ⟨rfl, by simp [mapResponse, blockedResp]⟩

/-- C8 (amended): for every Gemini vendor response with at least one
candidate that carries usage metadata, the canonical completion-token
count is the sum of the vendor's candidates-token and thinking-token
counters, and the canonical prompt and total counts equal the vendor's
prompt and total counters. -/
theorem c8_usage_mapping (genId : Nat → String) (resp : GeminiResponse)
    (u : GeminiUsage) (hne : resp.candidates ≠ [])
    (hu : resp.usageMetadata = some u) :
    (mapResponse genId resp).usage =
      { promptTokens := u.promptTokenCount
        completionTokens := u.candidatesTokenCount + u.thoughtsTokenCount
        totalTokens := u.totalTokenCount } := by
  cases hrc : resp.candidates with
  | nil => exact absurd hrc hne
  | cons c cs => simp [mapResponse, hrc, hu]

/-- Witness for C8 (amended) at a concrete one-candidate response. -/
theorem c8_witness :
    (mapResponse constGenId
      { candidates := [{ content := { role := "model", parts := [] },
                         finishReason := "STOP", index := 0 }]
        usageMetadata := some { promptTokenCount := 1, candidatesTokenCount := 2,
                                totalTokenCount := 3, thoughtsTokenCount := 4 }
        modelVersion := "" }).usage =
      { promptTokens := 1, completionTokens := 2 + 4, totalTokens := 3 } :=
  c8_usage_mapping constGenId _ _ (by simp) rfl

/-- C9: the tool-call assistant-message constructor yields role
`assistant`, the given calls and empty text content; the tool-result and
tool-error constructors yield role `tool` and stamp the supplied call
identifier and tool name onto the message. -/
theorem c9_constructors (calls : List ToolCall)
    (cid toolName output errMsg : String) :
    NewToolCallMessage calls =
      { role := "assistant", content := "", toolCalls := calls } ∧
    (NewToolResult cid toolName output).role = "tool" ∧
    (NewToolResult cid toolName output).toolCallID = cid ∧
    (NewToolResult cid toolName output).name = toolName ∧
    (NewToolError cid toolName errMsg).role = "tool" ∧
    (NewToolError cid toolName errMsg).toolCallID = cid ∧
    (NewToolError cid toolName errMsg).name = toolName :=
  ⟨rfl, rfl, rfl, rfl, rfl, rfl, rfl⟩

/-- C10: the retry-count field has no effect on `Run`: for any two values
of `maxRetries` and the same provider trace, tools, history and input
message, the final history, the result and the number of provider
invocations are identical — no retry loop consumes the field. -/
theorem c10_max_retries_unused (a : Agent) (m n : Int)
    (script : List ProviderStep) (usrMsg : String) :
    Agent.Run { a with maxRetries := m } script usrMsg =
      Agent.Run { a with maxRetries := n } script usrMsg := rfl

/-- C2: after a `tool_calls` round with pairwise-distinct call
identifiers, the history gains the assistant tool-call message first,
then exactly one linked tool-result/tool-error message per requested call
in the order the calls were returned; the stamped identifiers are, in
order, the identifiers of the calls, so each identifier of the assistant
message is used exactly once. -/
theorem c2_tool_linkage (tools : Registry) (model : String)
    (provider : ProviderStep) (rest : List ProviderStep)
    (hist : List Message) (usrMsg : String) (resp : ChatResponse)
    (choice : Choice) (cs : List Choice)
    (hp : provider (buildRequest tools model (hist ++ userPart usrMsg)) = .ok resp)
    (hc : resp.choices = choice :: cs)
    (hf : choice.finishReason = "tool_calls")
    (hd : (choice.message.toolCalls.map ToolCall.id).Nodup) :
    ∃ tail,
      (runAux tools model (provider :: rest) hist usrMsg).1 =
        hist ++ userPart usrMsg ++
          NewToolCallMessage choice.message.toolCalls ::
            (toolRoundMessages tools choice.message.toolCalls ++ tail) ∧
      (toolRoundMessages tools choice.message.toolCalls).map Message.toolCallID =
        choice.message.toolCalls.map ToolCall.id ∧
      ∀ cid ∈ choice.message.toolCalls.map ToolCall.id,
        ((toolRoundMessages tools choice.message.toolCalls).map
          Message.toolCallID).count cid = 1 := by
  obtain ⟨tail, heq, -⟩ :=
    runAux_extends tools model rest
      (hist ++ (userPart usrMsg ++
        NewToolCallMessage choice.message.toolCalls ::
          toolRoundMessages tools choice.message.toolCalls)) ""
  refine ⟨tail, ?_, toolRoundMessages_ids tools choice.message.toolCalls, ?_⟩
  · simp only [runAux]
    rw [hp]
    simp only [hc, hf, if_true]
    simpa [userPart] using heq
  · intro cid hcid
    rw [toolRoundMessages_ids tools choice.message.toolCalls]
    exact List.count_eq_one_of_mem hd hcid

/-- Witness for C2: a concrete round requesting two tool calls with
distinct identifiers. -/
theorem c2_witness :
    ∃ tail,
      (runAux echoReg "m" [c2step] [] "hi").1 =
        [] ++ userPart "hi" ++
          NewToolCallMessage c2choice.message.toolCalls ::
            (toolRoundMessages echoReg c2choice.message.toolCalls ++ tail) ∧
      (toolRoundMessages echoReg c2choice.message.toolCalls).map Message.toolCallID =
        c2choice.message.toolCalls.map ToolCall.id ∧
      ∀ cid ∈ c2choice.message.toolCalls.map ToolCall.id,
        ((toolRoundMessages echoReg c2choice.message.toolCalls).map
          Message.toolCallID).count cid = 1 :=
  c2_tool_linkage echoReg "m" c2step [] [] "hi" c2resp c2choice [] rfl rfl rfl
    (by simp [c2choice, c2calls])

/-! ## Claims C3 and C4: registry registration and execution -/

/-- Decoding JSON `null` into any Go value is a no-op and never an error
(`encoding/json` semantics). -/
theorem unmarshal_null (t : GoType) (c : GoValue) :
    unmarshal t c .null = some c := by
  rw [unmarshal]

/-- A JSON string cannot populate a struct-typed argument. -/
theorem unmarshal_struct_of_str (fts : List (String × GoType)) (c : GoValue)
    (s : String) : unmarshal (.struct fts) c (.str s) = none := by
  rw [unmarshal] <;> simp

/-- A JSON boolean cannot populate a struct-typed argument. -/
theorem unmarshal_struct_of_bool (fts : List (String × GoType)) (c : GoValue)
    (b : Bool) : unmarshal (.struct fts) c (.bool b) = none := by
  rw [unmarshal] <;> simp

/-- A JSON number cannot populate a struct-typed argument. -/
theorem unmarshal_struct_of_num (fts : List (String × GoType)) (c : GoValue)
    (n : Int) : unmarshal (.struct fts) c (.num n) = none := by
  rw [unmarshal] <;> simp

/-- A JSON array cannot populate a struct-typed argument. -/
theorem unmarshal_struct_of_arr (fts : List (String × GoType)) (c : GoValue)
    (xs : List Json) : unmarshal (.struct fts) c (.arr xs) = none := by
  rw [unmarshal] <;> simp

/-- Decoding a JSON object into a struct value decodes its fields. -/
theorem unmarshal_struct_obj (fts : List (String × GoType))
    (cfs : List (String × GoValue)) (jfs : List (String × Json)) :
    unmarshal (.struct fts) (.structV cfs) (.obj jfs) =
      (unmarshalFields fts cfs jfs).map GoValue.structV := by
  rw [unmarshal]

/-- The zero value of a struct type. -/
theorem zeroValue_struct (fts : List (String × GoType)) :
    zeroValue (.struct fts) = .structV (zeroValue.zeroFields fts) := by
  rw [zeroValue]

/-- C3 counterexample: the claim requires `Register` to reject every
function that does not return a string-convertible value, but `Register`
never inspects the return type — a one-argument function returning a
non-string kind registers successfully (the string check is deferred to
`Execute`). -/
theorem c3_counterexample :
    regIsOk (Register nullSchema NewRegistry "f" "d" intReturningFunc) = true := rfl

/-- C3 (amended): `Register` fails with the descriptive errors of the code
exactly for a non-function callable and for a function whose input count
is not one — leaving the registry unchanged, as the error is returned
before the map insertion — and succeeds for every function with exactly
one input, storing its definition regardless of its return type (the
string-convertibility check is deferred to `Execute`). -/
theorem c3_register_validation (genSchema : GoType → Json) (r : Registry)
    (name description : String) (c : GoCallable) :
    (∀ k, c = .nonFunc k →
      Register genSchema r name description c =
        .error "this is not a valid function please try again") ∧
    (∀ f, c = .func f → f.inTypes.length ≠ 1 →
      Register genSchema r name description c =
        .error "function must have exactly 1 argument") ∧
    (∀ f t, c = .func f → f.inTypes = [t] →
      Register genSchema r name description c =
        .ok (upsert r name
          { name := name
            description := description
            argsType := t
            fn := f.impl
            schema := genSchema t })) := by
  refine ⟨?_, ?_, ?_⟩
  · rintro k rfl
    rfl
  · rintro f rfl hlen
    cases hin : f.inTypes with
    | nil => simp [Register, hin]
    | cons t rest =>
        cases rest with
        | nil => exact absurd (by rw [hin]; rfl) hlen
        | cons t2 r2 => simp [Register, hin]
  · rintro f t rfl hin
    simp [Register, hin]

/-- Witness for C3 (amended), covering the three cases at concrete
callables. -/
theorem c3_witness :
    Register nullSchema NewRegistry "f" "d" (.nonFunc "string") =
      .error "this is not a valid function please try again" ∧
    Register nullSchema NewRegistry "f" "d" zeroArgFunc =
      .error "function must have exactly 1 argument" ∧
    Register nullSchema NewRegistry "echo" "sample"
        (.func { inTypes := [GoType.struct [("city", GoType.string)]]
                 impl := strReturningImpl }) =
      .ok (upsert NewRegistry "echo"
        { name := "echo"
          description := "sample"
          argsType := GoType.struct [("city", GoType.string)]
          fn := strReturningImpl
          schema := nullSchema (GoType.struct [("city", GoType.string)]) }) :=
  ⟨(c3_register_validation nullSchema NewRegistry "f" "d" (.nonFunc "string")).1
      "string" rfl,
   (c3_register_validation nullSchema NewRegistry "f" "d" zeroArgFunc).2.1
      { inTypes := [], impl := fun _ => [] } rfl (by decide),
   (c3_register_validation nullSchema NewRegistry "echo" "sample"
      (.func { inTypes := [GoType.struct [("city", GoType.string)]]
               impl := strReturningImpl })).2.2
      { inTypes := [GoType.struct [("city", GoType.string)]]
        impl := strReturningImpl }
      (GoType.struct [("city", GoType.string)]) rfl rfl⟩

/-- C4 counterexample: the claim requires JSON that is not an object to
fail with the invalid-arguments error, but `json.Unmarshal` of the JSON
literal `null` into a struct is a no-op success, so `Execute` runs the
tool on the zero-valued argument record instead of failing. -/
theorem c4_counterexample :
    Execute echoReg "echo" (some Json.null) = .ok "ok" := by
  simp [Execute, echoReg, echoDef, lookupDef, unmarshal_null, callResult,
    retToString, strReturningImpl]

/-- C4 (amended): `Execute` fails with the not-found error for an
unregistered name; fails with the invalid-arguments error exactly when the
argument string is malformed JSON or the document cannot populate the
registered argument shape — for a struct-typed argument every non-null
non-object document fails, an object (even one missing fields, which stay
at their zero values) succeeds, and the JSON literal `null`, though not an
object, also succeeds with the whole record at its zero value; otherwise
the bound callable runs on the decoded record and its first result is
returned when string-convertible, with the no-results error for a
zero-result callable and the did-not-return-a-string error for any other
result kind. -/
theorem c4_execute_errors (r : Registry) (name : String) :
    (callResult [] = .error "function returned no results") ∧
    (∀ v rest, retToString v = none →
      callResult (v :: rest) = .error "function did not return a string") ∧
    (∀ v s rest, retToString v = some s → callResult (v :: rest) = .ok s) ∧
    (lookupDef r name = none →
      ∀ j, Execute r name j = .error ("tool " ++ name ++ " not found")) ∧
    (∀ d, lookupDef r name = some d →
      (Execute r name none = .error "invalid args: malformed JSON") ∧
      (Execute r name (some Json.null) =
        callResult (d.fn (zeroValue d.argsType))) ∧
      (∀ jv v, unmarshal d.argsType (zeroValue d.argsType) jv = some v →
        Execute r name (some jv) = callResult (d.fn v)) ∧
      (∀ jv, unmarshal d.argsType (zeroValue d.argsType) jv = none →
        Execute r name (some jv) = .error "invalid args: cannot unmarshal") ∧
      (∀ fts, d.argsType = .struct fts →
        (∀ s, Execute r name (some (.str s)) =
          .error "invalid args: cannot unmarshal") ∧
        (∀ b, Execute r name (some (.bool b)) =
          .error "invalid args: cannot unmarshal") ∧
        (∀ n, Execute r name (some (.num n)) =
          .error "invalid args: cannot unmarshal") ∧
        (∀ xs, Execute r name (some (.arr xs)) =
          .error "invalid args: cannot unmarshal") ∧
        (Execute r name (some (.obj [])) =
          callResult (d.fn (zeroValue d.argsType))))) := by
  refine ⟨rfl, ?_, ?_, ?_, ?_⟩
  · intro v rest hv; simp [callResult, hv]
  · intro v sv rest hv; simp [callResult, hv]
  · intro hn j; simp [Execute, hn]
  · intro d hd
    refine ⟨by simp [Execute, hd], ?_, ?_, ?_, ?_⟩
    · simp [Execute, hd, unmarshal_null]
    · intro jv v hv; simp [Execute, hd, hv]
    · intro jv hv; simp [Execute, hd, hv]
    · intro fts hft
      refine ⟨?_, ?_, ?_, ?_, ?_⟩
      · intro sv; simp [Execute, hd, hft, unmarshal_struct_of_str]
      · intro b; simp [Execute, hd, hft, unmarshal_struct_of_bool]
      · intro n; simp [Execute, hd, hft, unmarshal_struct_of_num]
      · intro xs; simp [Execute, hd, hft, unmarshal_struct_of_arr]
      · simp [Execute, hd, hft, zeroValue_struct, unmarshal_struct_obj,
          unmarshalFields]

/-- Witness for C4 (amended) at concrete registry lookups and documents. -/
theorem c4_witness :
    Execute echoReg "missing" (some (Json.obj [])) =
      .error ("tool " ++ "missing" ++ " not found") ∧
    Execute echoReg "echo" none = .error "invalid args: malformed JSON" ∧
    Execute echoReg "echo" (some (.str "x")) =
      .error "invalid args: cannot unmarshal" ∧
    Execute echoReg "echo" (some (.obj [])) =
      callResult (echoDef.fn (zeroValue echoDef.argsType)) :=
  ⟨(c4_execute_errors echoReg "missing").2.2.2.1 rfl (some (Json.obj [])),
   ((c4_execute_errors echoReg "echo").2.2.2.2 echoDef rfl).1,
   (((c4_execute_errors echoReg "echo").2.2.2.2 echoDef rfl).2.2.2.2
      [("city", GoType.string)] rfl).1 "x",
   (((c4_execute_errors echoReg "echo").2.2.2.2 echoDef rfl).2.2.2.2
      [("city", GoType.string)] rfl).2.2.2.2⟩

end GoAgentSDK
